import Mathlib

/-!
# Shallow embedding of the stackdriver-reverse-proxy metrics core

This file embeds the metrics-aggregation pipeline of the repository
(`sproxy.go` and `cmd/stackdriver-reverse-proxy/main.go`) into Lean 4 and
proves properties of the embedded definitions.

Modelling conventions:
* Go `time.Time` / `time.Duration` values are modelled as `Int` nanoseconds
  (a `time.Duration` is an `int64` count of nanoseconds; `t2.Sub(t1)` is the
  difference of the instants in nanoseconds).
* Go `float64` arithmetic is modelled with exact rationals `ℚ`; the claims
  under study concern the exact arithmetic structure of the computations.
* Go `error` results are modelled as `Option GoErr` with `none` for the `nil`
  error (success) and `some e` for a non-nil error.
* Go maps (`map[int]int`, `map[int]float64`) are modelled as association
  lists updated in place; Go map iteration order is unspecified, here keys
  sit in first-insertion order, which only refines the Go behaviour.
-/

namespace SProxy

/-- A Go `error` value (identified by its message). -/
abbrev GoErr : Type := String

/-- `sproxy.Event` (sproxy.go lines 23–31): one observed request or response.
`StartTime`/`EndTime` are wall-clock instants in nanoseconds. -/
structure Event where
  StatusCode : Int
  Request : Bool
  ResponseSize : Int
  StartTime : Int
  EndTime : Int
  TraceID : String
  Err : Option GoErr
deriving DecidableEq, Repr

/-- `sproxy.InflightStats` (sproxy.go lines 163–169).  `RateResponseStats`
models the Go `map[int]float64` as an association list. -/
structure InflightStats where
  NRequests : Nat
  TraceIDs : List String
  NthIteration : Nat
  RateResponseStats : List (Int × ℚ)
  AverageResponseDurationSeconds : ℚ
deriving DecidableEq, Repr

/-- `sproxy.MetricsReporter` (sproxy.go lines 33–43).  `cancelFired` is the
state of the `sync.Once` inside the canceler made by `makeCanceler`;
`hasCancelFn` records whether `cancelFn` is non-nil (`NewMetricsReporter`
always sets it). -/
structure MetricsReporter where
  currentEvents : List Event
  period : Int
  cancelFired : Bool
  hasCancelFn : Bool
  statsRecvFn : Option (InflightStats → Option GoErr)

/-- `defaultPeriod = 1 * time.Minute` (sproxy.go line 45), in nanoseconds. -/
def defaultPeriod : Int := 60 * 1000000000

/-- `NewMetricsReporter` (sproxy.go lines 47–59): a non-positive period is
replaced with `defaultPeriod`; the function always returns a non-nil reporter
and a nil error. -/
def NewMetricsReporter (period : Int) : Option MetricsReporter × Option GoErr :=
  let period := if period ≤ 0 then defaultPeriod else period
  (some { currentEvents := []
          period := period
          cancelFired := false
          hasCancelFn := true
          statsRecvFn := none }, none)

/-- `errAlreadyClosed` (sproxy.go line 74). -/
def errAlreadyClosed : GoErr := "already closed"

/-- The cancel function produced by `makeCanceler` (sproxy.go lines 76–89):
the `sync.Once` fires the closing body exactly once; the first call closes
the channel and returns nil, every later call returns `errAlreadyClosed`.
The argument is the current fired-state of the `sync.Once`; the result pairs
the returned error with the new fired-state. -/
def cancelFn (fired : Bool) : Option GoErr × Bool :=
  if fired then (some errAlreadyClosed, true) else (none, true)

/-- `(*MetricsReporter).Close` (sproxy.go lines 61–66): returns nil when
`cancelFn` is nil, otherwise calls the canceler. -/
def Close (mr : MetricsReporter) : Option GoErr × MetricsReporter :=
  if mr.hasCancelFn then
    let r := cancelFn mr.cancelFired
    (r.1, { mr with cancelFired := r.2 })
  else
    (none, mr)

/-- Results of `n` successive `Close` calls on a reporter. -/
def closeSeq (mr : MetricsReporter) : Nat → List (Option GoErr)
  | 0 => []
  | n + 1 =>
    let r := Close mr
    r.1 :: closeSeq r.2 n

/-- `(*MetricsReporter).AddEvent` (sproxy.go lines 68–72): appends the event
to `currentEvents`. -/
def AddEvent (mr : MetricsReporter) (evt : Event) : MetricsReporter :=
  { mr with currentEvents := mr.currentEvents ++ [evt] }

/-- `(*MetricsReporter).drainEvents` (sproxy.go lines 114–121): returns a
frozen copy of `currentEvents` and resets the buffer to an empty slice. -/
def drainEvents (mr : MetricsReporter) : List Event × MetricsReporter :=
  (mr.currentEvents, { mr with currentEvents := [] })

/-- `responsesCounter[statusIndex] += 1` on the Go map (sproxy.go line 136):
increment the entry, inserting it with value 1 when absent. -/
def mapIncr (m : List (Int × Nat)) (k : Int) : List (Int × Nat) :=
  match m with
  | [] => [(k, 1)]
  | (k', v) :: rest =>
    if k' = k then (k', v + 1) :: rest else (k', v) :: mapIncr rest k

/-- The accumulator of the event loop in `reportEvents`
(sproxy.go lines 124–140). -/
structure ReduceAcc where
  nResponses : Nat
  nRequests : Nat
  totalResponseDuration : Int
  responsesCounter : List (Int × Nat)
  traceIDs : List String
deriving DecidableEq, Repr

/-- One iteration of the `for _, evt := range events` loop in `reportEvents`
(sproxy.go lines 129–140). -/
def reduceStep (acc : ReduceAcc) (evt : Event) : ReduceAcc :=
  let acc := { acc with traceIDs := acc.traceIDs ++ [evt.TraceID] }
  match evt.Request with
  | true => { acc with nRequests := acc.nRequests + 1 }
  | false =>
    { acc with
      responsesCounter := mapIncr acc.responsesCounter (evt.StatusCode.tdiv 100)
      nResponses := acc.nResponses + 1
      totalResponseDuration :=
        acc.totalResponseDuration + (evt.EndTime - evt.StartTime) }

/-- The initial accumulator of `reportEvents` (sproxy.go lines 124–128). -/
def reduceInit : ReduceAcc :=
  { nResponses := 0
    nRequests := 0
    totalResponseDuration := 0
    responsesCounter := []
    traceIDs := [] }

/-- The statistics computed by `(*MetricsReporter).reportEvents`
(sproxy.go lines 123–159): run the event loop, floor `nResponses` at 1,
build the rate map and the average duration.  `Duration.Seconds()` is the
nanosecond count divided by 10⁹. -/
def reportEventsStats (events : List Event) (nIter : Nat) : InflightStats :=
  let acc := events.foldl reduceStep reduceInit
  let nResponses := if acc.nResponses ≤ 0 then 1 else acc.nResponses
  { NRequests := acc.nRequests
    TraceIDs := acc.traceIDs
    NthIteration := nIter
    RateResponseStats :=
      acc.responsesCounter.map
        (fun kv => (kv.1, 100 * ((kv.2 : ℚ) / (nResponses : ℚ))))
    AverageResponseDurationSeconds :=
      ((acc.totalResponseDuration : ℚ) / 1000000000) / (nResponses : ℚ) }

/-- `(*MetricsReporter).sendStats` (sproxy.go lines 171–179): a nil receiver
makes the dispatch a no-op returning nil; otherwise the receiver's result is
returned. -/
def sendStats (mr : MetricsReporter) (stats : InflightStats) : Option GoErr :=
  match mr.statsRecvFn with
  | none => none
  | some recvFn => recvFn stats

/-- `(*MetricsReporter).reportEvents` (sproxy.go lines 123–161): the computed
stats together with the result of `sendStats`, which the Go code discards. -/
def reportEvents (mr : MetricsReporter) (events : List Event) (nIter : Nat) :
    InflightStats × Option GoErr :=
  let stats := reportEventsStats events nIter
  (stats, sendStats mr stats)

/-- Number of response-marker events in a batch. -/
def respCount (events : List Event) : Nat :=
  events.countP (fun e => !e.Request)

/-- Number of response-marker events of status class `b` in a batch. -/
def respClassCount (events : List Event) (b : Int) : Nat :=
  events.countP (fun e => !e.Request && (e.StatusCode.tdiv 100 == b))

/-- A response-marker event with the given status code (times zeroed). -/
def respEvent (code : Int) : Event :=
  { StatusCode := code
    Request := false
    ResponseSize := 0
    StartTime := 0
    EndTime := 0
    TraceID := ""
    Err := none }

/-- An observable action of the `Do` loop (sproxy.go lines 94–109): a drain
of the buffer at a given iteration, or the dispatch of a report (the spawned
`reportEvents` goroutine) with the sink's result. -/
inductive DoAction where
  | drain (iter : Nat) (events : List Event)
  | report (iter : Nat) (stats : InflightStats) (sinkResult : Option GoErr)
deriving Repr

/-- The trace of the `Do` loop (sproxy.go lines 94–109) starting from loop
counter `i`.  Each list entry is the outcome of one `select`: `none` means
the stop signal was delivered (the loop returns at once, consuming nothing
further), `some evts` means the period elapsed first and `evts` is what
`drainEvents` found in the buffer at that tick (the buffer contents are an
oracle for the concurrent `AddEvent` callers). -/
def DoTraceAux (mr : MetricsReporter) (i : Nat) :
    List (Option (List Event)) → List DoAction
  | [] => []
  | none :: _ => []
  | some evts :: rest =>
    let stats := reportEventsStats evts (i + 1)
    DoAction.drain (i + 1) evts ::
      DoAction.report (i + 1) stats (sendStats mr stats) ::
        DoTraceAux mr (i + 1) rest

/-- The trace of `(*MetricsReporter).Do` from its initial counter `i = 0`. -/
def DoTrace (mr : MetricsReporter) (sched : List (Option (List Event))) :
    List DoAction :=
  DoTraceAux mr 0 sched

/-- Whether a `Do`-loop action is a drain of the event buffer. -/
def DoAction.isDrain : DoAction → Bool
  | .drain _ _ => true
  | .report _ _ _ => false

/-- The drains occurring in a `Do`-loop trace, with their iteration numbers
and drained batches. -/
def drainsOf (t : List DoAction) : List (Nat × List Event) :=
  t.filterMap (fun a =>
    match a with
    | .drain i evts => some (i, evts)
    | .report _ _ _ => none)

/-- An HTTP response as seen by the proxy transport (only the status code is
read by `RoundTrip`). -/
structure Response where
  StatusCode : Int
deriving DecidableEq, Repr

/-- The request-marker event fired at the start of
`(*transport).RoundTrip` (cmd/stackdriver-reverse-proxy/main.go
lines 160–165): `Request` is true and both instants equal `startTime`. -/
def requestMarker (traceID : String) (startTime : Int) : Event :=
  { StatusCode := 0
    Request := true
    ResponseSize := 0
    StartTime := startTime
    EndTime := startTime
    TraceID := traceID
    Err := none }

/-- The response-marker event built in the deferred function of
`(*transport).RoundTrip` (cmd/stackdriver-reverse-proxy/main.go
lines 169–182): `statusCode` starts at 500 and is overwritten with
`resp.StatusCode` when the round trip produced a response. -/
def responseMarker (resp : Option Response) (err : Option GoErr)
    (traceID : String) (startTime endTime : Int) : Event :=
  { StatusCode :=
      match resp with
      | some r => r.StatusCode
      | none => 500
    Request := false
    ResponseSize := 0
    StartTime := startTime
    EndTime := endTime
    TraceID := traceID
    Err := err }

/-- The events `(*transport).RoundTrip` submits to the reporter for one
round trip (when a `MetricsReporter` is configured): the request marker at
entry and the response marker from the deferred function. -/
def roundTripEvents (resp : Option Response) (err : Option GoErr)
    (traceID : String) (startTime endTime : Int) : List Event :=
  [requestMarker traceID startTime,
   responseMarker resp err traceID startTime endTime]

/-- How a counter-map entry changes after `c` increments of its key:
a present entry grows by `c`, an absent one appears iff `c > 0`. -/
def addCount (o : Option Nat) (c : Nat) : Option Nat :=
  match o with
  | some v => some (v + c)
  | none => if c = 0 then none else some c

/-- The five response events of the spec's status-bucketing example. -/
def exampleStatusEvents : List Event :=
  [respEvent 200, respEvent 201, respEvent 404, respEvent 500, respEvent 503]

/-- A fresh reporter exactly as `NewMetricsReporter` builds it with the
default period. -/
def freshReporter : MetricsReporter :=
  { currentEvents := []
    period := defaultPeriod
    cancelFired := false
    hasCancelFn := true
    statsRecvFn := none }

/-! ## Supporting lemmas -/

theorem addCount_zero (o : Option Nat) : addCount o 0 = o := by
  cases o <;> simp [addCount]

theorem currentEvents_foldl (evts : List Event) (mr : MetricsReporter) :
    (evts.foldl AddEvent mr).currentEvents = mr.currentEvents ++ evts := by
  induction evts generalizing mr with
  | nil => simp
  | cons e rest ih => simp [AddEvent, ih]

theorem close_not_fired (mr : MetricsReporter) (hc : mr.hasCancelFn = true)
    (hf : mr.cancelFired = false) :
    Close mr = (none, { mr with cancelFired := true }) := by
  simp [Close, hc, cancelFn, hf]

theorem closeSeq_fired (n : Nat) (mr : MetricsReporter)
    (hc : mr.hasCancelFn = true) (hf : mr.cancelFired = true) :
    closeSeq mr n = List.replicate n (some errAlreadyClosed) := by
  induction n generalizing mr with
  | zero => simp [closeSeq]
  | succ n ih =>
    have h1 : Close mr = (some errAlreadyClosed, { mr with cancelFired := true }) := by
      simp [Close, hc, cancelFn, hf]
    simp only [closeSeq, h1, List.replicate_succ, List.cons.injEq, true_and]
    exact ih _ (by simp [hc]) (by simp)

theorem lookup_mapIncr (m : List (Int × Nat)) (k b : Int) :
    List.lookup b (mapIncr m k) =
      if b = k then some ((List.lookup b m).getD 0 + 1) else List.lookup b m := by
  induction m with
  | nil =>
    simp only [mapIncr, List.lookup_cons, List.lookup_nil]
    by_cases h : b = k
    · simp [h]
    · simp [h, beq_false_of_ne h]
  | cons kv rest ih =>
    obtain ⟨k', v⟩ := kv
    simp only [mapIncr]
    by_cases h1 : k' = k
    · subst h1
      by_cases h2 : b = k'
      · subst h2
        simp [List.lookup_cons]
      · simp [List.lookup_cons, beq_false_of_ne h2, h2]
    · by_cases h2 : b = k'
      · subst h2
        simp [List.lookup_cons, if_neg h1]
      · simp only [List.lookup_cons, beq_false_of_ne h2, if_neg h1]
        exact ih

theorem counter_foldl (events : List Event) (acc : ReduceAcc) (b : Int) :
    List.lookup b ((events.foldl reduceStep acc).responsesCounter) =
      addCount (List.lookup b acc.responsesCounter) (respClassCount events b) := by
  induction events generalizing acc with
  | nil => simp [respClassCount, addCount_zero]
  | cons e rest ih =>
    simp only [List.foldl_cons]
    rw [ih]
    simp only [respClassCount, List.countP_cons]
    cases he : e.Request with
    | true =>
      simp [reduceStep, he]
    | false =>
      simp only [reduceStep, he, Bool.not_false, Bool.true_and]
      rw [lookup_mapIncr]
      by_cases hb : b = e.StatusCode.tdiv 100
      · rw [if_pos hb, if_pos (by subst hb; simp)]
        cases hlk : List.lookup b acc.responsesCounter <;>
          simp [addCount, hlk] <;> omega
      · rw [if_neg hb, if_neg (by simp; exact fun hh => absurd hh.symm hb)]
        simp [respClassCount]

theorem nResponses_foldl (events : List Event) (acc : ReduceAcc) :
    (events.foldl reduceStep acc).nResponses = acc.nResponses + respCount events := by
  induction events generalizing acc with
  | nil => simp [respCount]
  | cons e rest ih =>
    simp only [List.foldl_cons]
    rw [ih]
    simp only [respCount, List.countP_cons]
    cases he : e.Request with
    | true => simp [reduceStep, he]
    | false => simp [reduceStep, he]; omega

theorem lookup_rate_map (m : List (Int × Nat)) (D : ℚ) (b : Int) :
    List.lookup b (m.map (fun kv => (kv.1, 100 * ((kv.2 : ℚ) / D)))) =
      (List.lookup b m).map (fun (v : Nat) => 100 * ((v : ℚ) / D)) := by
  induction m with
  | nil => simp
  | cons kv rest ih =>
    obtain ⟨k', v⟩ := kv
    by_cases h : b = k'
    · subst h; simp [List.lookup_cons]
    · simp [List.lookup_cons, beq_false_of_ne h, ih]

theorem rate_lookup (events : List Event) (n : Nat) (b : Int)
    (hb : 0 < respClassCount events b) :
    List.lookup b (reportEventsStats events n).RateResponseStats =
      some (100 * ((respClassCount events b : ℚ) /
        ((max (respCount events) 1 : Nat) : ℚ))) := by
  simp only [reportEventsStats]
  rw [lookup_rate_map, counter_foldl]
  have hinit : List.lookup b reduceInit.responsesCounter = none := by
    simp [reduceInit]
  rw [hinit]
  simp only [addCount]
  rw [if_neg (Nat.pos_iff_ne_zero.mp hb)]
  rw [nResponses_foldl]
  have hmax : (if reduceInit.nResponses + respCount events ≤ 0 then 1
      else reduceInit.nResponses + respCount events) = max (respCount events) 1 := by
    simp only [reduceInit]
    split <;> omega
  rw [hmax]
  rfl

theorem exampleStatusEvents_rates :
    (reportEventsStats exampleStatusEvents 1).RateResponseStats =
      [(2, 40), (4, 20), (5, 40)] := by
  simp only [exampleStatusEvents, reportEventsStats, List.foldl, reduceStep, reduceInit,
    mapIncr, respEvent,
    show Int.tdiv 200 100 = 2 from rfl, show Int.tdiv 201 100 = 2 from rfl,
    show Int.tdiv 404 100 = 4 from rfl, show Int.tdiv 500 100 = 5 from rfl,
    show Int.tdiv 503 100 = 5 from rfl]
  norm_num

theorem keys_mapIncr (m : List (Int × Nat)) (k b : Int)
    (h : b ∈ (mapIncr m k).map Prod.fst) : b ∈ m.map Prod.fst ∨ b = k := by
  induction m with
  | nil =>
    simp [mapIncr] at h
    simp [h]
  | cons kv rest ih =>
    obtain ⟨k', v⟩ := kv
    simp only [mapIncr] at h
    by_cases h1 : k' = k
    · rw [if_pos h1] at h
      simp at h ⊢
      tauto
    · rw [if_neg h1] at h
      simp only [List.map_cons, List.mem_cons] at h ⊢
      rcases h with h | h
      · tauto
      · rcases ih h with h2 | h2 <;> tauto

theorem keys_counter_foldl (events : List Event) (acc : ReduceAcc) (b : Int)
    (h : b ∈ ((events.foldl reduceStep acc).responsesCounter).map Prod.fst) :
    b ∈ acc.responsesCounter.map Prod.fst ∨
      ∃ e ∈ events, e.Request = false ∧ e.StatusCode.tdiv 100 = b := by
  induction events generalizing acc with
  | nil =>
    simp only [List.foldl_nil] at h
    tauto
  | cons e rest ih =>
    simp only [List.foldl_cons] at h
    rcases ih _ h with h1 | h1
    · cases he : e.Request with
      | false =>
        simp only [reduceStep, he] at h1
        rcases keys_mapIncr _ _ _ h1 with h2 | h2
        · left; exact h2
        · right; exact ⟨e, by simp, he, h2.symm⟩
      | true =>
        simp only [reduceStep, he] at h1
        left; exact h1
    · right
      obtain ⟨e', he', hq, hc⟩ := h1
      exact ⟨e', by simp [he'], hq, hc⟩

theorem DoTraceAux_cancel (mr : MetricsReporter) (i : Nat)
    (pre post : List (Option (List Event))) :
    DoTraceAux mr i (pre ++ none :: post) = DoTraceAux mr i (pre ++ [none]) := by
  induction pre generalizing i with
  | nil => simp [DoTraceAux]
  | cons o rest ih =>
    cases o with
    | none => simp [DoTraceAux]
    | some evts =>
      simp only [List.cons_append, DoTraceAux, List.cons.injEq, true_and]
      exact ih (i + 1)

theorem drainsOf_DoTraceAux_len (mr : MetricsReporter) (i : Nat)
    (pre : List (Option (List Event))) (hall : ∀ o ∈ pre, o ≠ none) :
    (drainsOf (DoTraceAux mr i (pre ++ [none]))).length = pre.length := by
  induction pre generalizing i with
  | nil => simp [DoTraceAux, drainsOf]
  | cons o rest ih =>
    cases o with
    | none => exact absurd rfl (hall none (List.mem_cons_self _ _))
    | some evts =>
      simp only [List.cons_append, DoTraceAux, drainsOf, List.filterMap_cons]
      simp only [drainsOf] at ih
      simp [ih (i + 1) (fun o ho => hall o (by simp [ho]))]

theorem drainsOf_DoTraceAux_sink (mr : MetricsReporter)
    (f : Option (InflightStats → Option GoErr)) (i : Nat)
    (sched : List (Option (List Event))) :
    drainsOf (DoTraceAux { mr with statsRecvFn := f } i sched) =
      drainsOf (DoTraceAux mr i sched) := by
  induction sched generalizing i with
  | nil => rfl
  | cons o rest ih =>
    cases o with
    | none => rfl
    | some evts =>
      simp only [DoTraceAux, drainsOf, List.filterMap_cons]
      simp only [drainsOf] at ih
      simp [ih (i + 1)]

/-! ## Claim theorems -/

/-- C1: for every batch of events, the reducer's rate map entry for each
status class `b` appearing among response-marker events is 100 times the
count of response-markers whose status code tdiv 100 equals `b`, divided by
the number of response-markers floored at 1; in particular, for the five
response events with status codes 200, 201, 404, 500, 503 it produces rates
2 ↦ 40, 4 ↦ 20, 5 ↦ 40, which sum to 100. -/
theorem claim_status_class_rates (events : List Event) (n : Nat) (b : Int)
    (hb : 0 < respClassCount events b) :
    (List.lookup b (reportEventsStats events n).RateResponseStats =
      some (100 * ((respClassCount events b : ℚ) /
        ((max (respCount events) 1 : Nat) : ℚ)))) ∧
    (reportEventsStats exampleStatusEvents 1).RateResponseStats =
      [(2, 40), (4, 20), (5, 40)] ∧
    ((reportEventsStats exampleStatusEvents 1).RateResponseStats.map
      Prod.snd).sum = 100 := by
  refine ⟨rate_lookup events n b hb, exampleStatusEvents_rates, ?_⟩
  rw [exampleStatusEvents_rates]
  norm_num

/-- Witness for C1 at a concrete input: one response with status 200. -/
theorem claim_status_class_rates_witness :
    0 < respClassCount [respEvent 200] 2 ∧
    List.lookup 2 (reportEventsStats [respEvent 200] 1).RateResponseStats =
      some (100 * ((respClassCount [respEvent 200] 2 : ℚ) /
        ((max (respCount [respEvent 200]) 1 : Nat) : ℚ))) :=
  ⟨by decide, (claim_status_class_rates [respEvent 200] 1 2 (by decide)).1⟩

/-- C2: reducing an empty batch never fails (the reducer is a total
function) and yields the neutral summary: `NRequests = 0`, an empty
`RateResponseStats` map, `AverageResponseDurationSeconds = 0`, and
`TraceIDs = []`. -/
theorem claim_empty_batch_reduction (n : Nat) :
    reportEventsStats [] n =
      { NRequests := 0
        TraceIDs := []
        NthIteration := n
        RateResponseStats := []
        AverageResponseDurationSeconds := 0 } := by
  simp only [reportEventsStats, List.foldl, reduceInit]
  norm_num

/-- C3: for every reporter returned by `NewMetricsReporter`, the first
`Close` returns success (nil) and every subsequent `Close` returns
`errAlreadyClosed`; among any number of calls exactly one succeeds. -/
theorem claim_close_idempotent (p : Int) (n : Nat) (mr : MetricsReporter)
    (h : (NewMetricsReporter p).1 = some mr) :
    closeSeq mr (n + 1) = none :: List.replicate n (some errAlreadyClosed) ∧
    (closeSeq mr (n + 1)).count none = 1 := by
  simp only [NewMetricsReporter, Option.some_inj] at h
  have hc : mr.hasCancelFn = true := by rw [← h]
  have hf : mr.cancelFired = false := by rw [← h]
  have hmain : closeSeq mr (n + 1) =
      none :: List.replicate n (some errAlreadyClosed) := by
    simp only [closeSeq, close_not_fired mr hc hf, List.cons.injEq, true_and]
    exact closeSeq_fired n _ (by simp [hc]) (by simp)
  refine ⟨hmain, ?_⟩
  rw [hmain]
  simp [List.count_cons, List.count_replicate]

/-- Witness for C3: a reporter built with period 0, one `Close` call. -/
theorem claim_close_idempotent_witness :
    closeSeq freshReporter 1 = [none] ∧
    (closeSeq freshReporter 1).count none = 1 :=
  claim_close_idempotent 0 0 freshReporter rfl

/-- C4: `NewMetricsReporter` normalizes a non-positive period to the
default of 1 minute (60 × 10⁹ nanoseconds) and keeps a positive period
unchanged; the invalid input is not rejected. -/
theorem claim_period_normalization (p : Int) :
    defaultPeriod = 60 * 1000000000 ∧
    (p ≤ 0 → ∃ mr, (NewMetricsReporter p).1 = some mr ∧
      mr.period = defaultPeriod) ∧
    (0 < p → ∃ mr, (NewMetricsReporter p).1 = some mr ∧ mr.period = p) := by
  refine ⟨rfl, ?_, ?_⟩
  · intro h
    refine ⟨_, rfl, ?_⟩
    show (if p ≤ 0 then defaultPeriod else p) = defaultPeriod
    rw [if_pos h]
  · intro h
    refine ⟨_, rfl, ?_⟩
    show (if p ≤ 0 then defaultPeriod else p) = p
    have h2 : ¬ (p ≤ 0) := by omega
    rw [if_neg h2]

/-- Witness for C4 at the concrete periods −5 and 7. -/
theorem claim_period_normalization_witness :
    (∃ mr, (NewMetricsReporter (-5)).1 = some mr ∧
      mr.period = defaultPeriod) ∧
    (∃ mr, (NewMetricsReporter 7).1 = some mr ∧ mr.period = 7) :=
  ⟨(claim_period_normalization (-5)).2.1 (by decide),
   (claim_period_normalization 7).2.2 (by decide)⟩

/-- C5: adding any sequence of events to a reporter with an empty buffer
and then draining returns exactly those events in order and leaves the
buffer empty, so an immediately following drain returns the empty
sequence. -/
theorem claim_drain_returns_added_events (evts : List Event)
    (mr : MetricsReporter) (h : mr.currentEvents = []) :
    (drainEvents (evts.foldl AddEvent mr)).1 = evts ∧
    (drainEvents (drainEvents (evts.foldl AddEvent mr)).2).1 = [] := by
  constructor
  · simp [drainEvents, currentEvents_foldl, h]
  · simp [drainEvents]

/-- Witness for C5: one added event on a fresh reporter. -/
theorem claim_drain_returns_added_events_witness :
    (drainEvents ([respEvent 200].foldl AddEvent freshReporter)).1 =
      [respEvent 200] ∧
    (drainEvents
      (drainEvents ([respEvent 200].foldl AddEvent freshReporter)).2).1 = [] :=
  claim_drain_returns_added_events [respEvent 200] freshReporter rfl

/-- C6 counterexample: it is not true that every key of the reducer's
`RateResponseStats` map lies in the range 1–5; a response event with status
code 600 produces the key 6. -/
theorem claim_rate_keys_counterexample :
    ¬ (∀ (events : List Event) (n : Nat),
        ∀ b ∈ (reportEventsStats events n).RateResponseStats.map Prod.fst,
          1 ≤ b ∧ b ≤ 5) := by
  intro h
  have h6 := h [respEvent 600] 1 6
  have hmem : (6 : Int) ∈
      (reportEventsStats [respEvent 600] 1).RateResponseStats.map Prod.fst := by
    simp [reportEventsStats, List.foldl, reduceStep, reduceInit, mapIncr,
      respEvent, show Int.tdiv 600 100 = 6 from rfl]
  have := h6 hmem
  omega

/-- C6 amended: when every response-marker event in the batch has a status
code in the range 100–599, every key of the reducer's `RateResponseStats`
map is a status class in the range 1 to 5 (the status code divided
by 100). -/
theorem claim_rate_keys_in_range (events : List Event) (n : Nat)
    (h : ∀ e ∈ events, e.Request = false →
      100 ≤ e.StatusCode ∧ e.StatusCode ≤ 599) :
    ∀ b ∈ (reportEventsStats events n).RateResponseStats.map Prod.fst,
      1 ≤ b ∧ b ≤ 5 := by
  intro b hb
  simp only [reportEventsStats] at hb
  have hb' : b ∈
      ((events.foldl reduceStep reduceInit).responsesCounter).map Prod.fst := by
    simpa [List.map_map, Function.comp] using hb
  rcases keys_counter_foldl _ _ _ hb' with h1 | h1
  · simp [reduceInit] at h1
  · obtain ⟨e, he, hq, hc⟩ := h1
    obtain ⟨hl, hr⟩ := h e he hq
    subst hc
    rw [Int.tdiv_eq_ediv (by omega) (by omega)]
    omega

/-- Witness for the amended C6: one response with status 200 yields the
key 2, which is within range. -/
theorem claim_rate_keys_in_range_witness :
    (2 : Int) ∈
      (reportEventsStats [respEvent 200] 1).RateResponseStats.map Prod.fst ∧
    (1 ≤ (2 : Int) ∧ (2 : Int) ≤ 5) := by
  have hmem : (2 : Int) ∈
      (reportEventsStats [respEvent 200] 1).RateResponseStats.map Prod.fst := by
    simp [reportEventsStats, List.foldl, reduceStep, reduceInit, mapIncr,
      respEvent, show Int.tdiv 200 100 = 2 from rfl]
  exact ⟨hmem, claim_rate_keys_in_range [respEvent 200] 1 (by decide) 2 hmem⟩

/-- C7: once the stop signal is delivered to the `Do` loop's select, the
loop exits and no further drain occurs — the trace is unchanged by whatever
the schedule holds after the stop signal, and when the stop signal arrives
after `pre.length` timer ticks the trace contains exactly `pre.length`
drains (reports already dispatched appear in the trace before the stop and
are not awaited). -/
theorem claim_no_drain_after_stop (mr : MetricsReporter)
    (pre post : List (Option (List Event))) :
    DoTrace mr (pre ++ none :: post) = DoTrace mr (pre ++ [none]) ∧
    ((∀ o ∈ pre, o ≠ none) →
      (drainsOf (DoTrace mr (pre ++ none :: post))).length = pre.length) := by
  constructor
  · exact DoTraceAux_cancel mr 0 pre post
  · intro hall
    rw [DoTrace, DoTraceAux_cancel mr 0 pre post]
    exact drainsOf_DoTraceAux_len mr 0 pre hall

/-- Witness for C7: one tick, then the stop signal, then one more schedule
entry that the loop never consumes. -/
theorem claim_no_drain_after_stop_witness :
    DoTrace freshReporter [some [], none, some [respEvent 200]] =
      DoTrace freshReporter [some [], none] ∧
    (drainsOf (DoTrace freshReporter [some [], none, some [respEvent 200]])).length = 1 :=
  ⟨(claim_no_drain_after_stop freshReporter [some []] [some [respEvent 200]]).1,
   (claim_no_drain_after_stop freshReporter [some []] [some [respEvent 200]]).2
     (by decide)⟩

/-- C8: with no stats receiver configured, dispatching a window's stats is
a no-op returning success; and the sink never influences the timer loop's
drains nor the buffer seen by `AddEvent` callers, so a failing receiver is
never propagated to them and never stops the loop. -/
theorem claim_sink_failure_isolated (mr : MetricsReporter) :
    (mr.statsRecvFn = none → ∀ stats, sendStats mr stats = none) ∧
    (∀ f sched, drainsOf (DoTrace { mr with statsRecvFn := f } sched) =
      drainsOf (DoTrace mr sched)) ∧
    (∀ f evt, (AddEvent { mr with statsRecvFn := f } evt).currentEvents =
      (AddEvent mr evt).currentEvents) := by
  refine ⟨?_, ?_, ?_⟩
  · intro h stats
    simp [sendStats, h]
  · intro f sched
    exact drainsOf_DoTraceAux_sink mr f 0 sched
  · intro f evt
    rfl

/-- Witness for C8: a fresh reporter has no receiver and its dispatch of
the empty-window stats returns success. -/
theorem claim_sink_failure_isolated_witness :
    sendStats freshReporter (reportEventsStats [] 1) = none :=
  (claim_sink_failure_isolated freshReporter).1 rfl (reportEventsStats [] 1)

/-- C9: the response-marker event submitted by the collaborator transport's
`RoundTrip` is a response (not a request marker), is among the submitted
events, and carries the response's status code when a response was
produced and the fixed failure sentinel 500 when the round trip produced
no response. -/
theorem claim_response_marker_status (resp : Option Response)
    (err : Option GoErr) (tid : String) (s t : Int) :
    (responseMarker resp err tid s t).Request = false ∧
    responseMarker resp err tid s t ∈ roundTripEvents resp err tid s t ∧
    (∀ r, resp = some r →
      (responseMarker resp err tid s t).StatusCode = r.StatusCode) ∧
    (resp = none → (responseMarker resp err tid s t).StatusCode = 500) := by
  refine ⟨rfl, by simp [roundTripEvents], ?_, ?_⟩
  · intro r h
    subst h
    rfl
  · intro h
    subst h
    rfl

/-- Witness for C9: a 204 response yields status code 204; a failed round
trip with no response yields the sentinel 500. -/
theorem claim_response_marker_status_witness :
    (responseMarker (some ⟨204⟩) none "t" 0 5).StatusCode = 204 ∧
    (responseMarker none (some "eof") "t" 0 5).StatusCode = 500 :=
  ⟨(claim_response_marker_status (some ⟨204⟩) none "t" 0 5).2.2.1 ⟨204⟩ rfl,
   (claim_response_marker_status none (some "eof") "t" 0 5).2.2.2 rfl⟩

/-- C10: construction never fails — for every period value,
`NewMetricsReporter` returns a non-nil reporter together with a nil
error. -/
theorem claim_construction_never_fails (p : Int) :
    (NewMetricsReporter p).1.isSome = true ∧
    (NewMetricsReporter p).2 = none := by
  constructor <;> rfl

end SProxy
